import Mathlib

/-!
Verification of the zone-based intrusion decision engine
(`src/geometry_utils.py`, `src/intrusion_detector.py`, `src/zone_manager.py`).

Python floats are embedded as exact rationals (`ℚ`), pixel coordinates as
integers (`ℤ`), and the Python `int(...)` truncation as `Int.tdiv` of numerator
by denominator.  Python truthiness of the optional float
`AlarmState.deactivate_time` is embedded faithfully: both `None` and `0.0`
are falsy.
-/

namespace SecurityCheck

/-! ### Alarm state machine (`intrusion_detector.py`, class `AlarmState`) -/

/-- The mutable fields of the Python class `AlarmState`:
`self.active : bool` and `self.deactivate_time : Optional[float]`. -/
structure AlarmState where
  active : Bool
  deactivate_time : Option ℚ
  deriving DecidableEq, Repr

/-- The hysteresis constant `self.deactivate_delay = 3.0`. -/
def deactivate_delay : ℚ := 3

/-- Python truthiness of the `Optional[float]` field: `None` and `0.0` are
falsy, every other float is truthy. -/
def pyTruthy : Option ℚ → Bool
  | none => false
  | some t => decide (t ≠ 0)

/-- Method `AlarmState.activate`: `self.active = True; self.deactivate_time = None`. -/
def AlarmState.activate (s : AlarmState) : AlarmState :=
  { s with active := true, deactivate_time := none }

/-- Comparison `current_time >= self.deactivate_time`, evaluated on the optional field
(only reached when the field is truthy, hence present). -/
def timeReached (current_time : ℚ) : Option ℚ → Bool
  | none => false
  | some t => decide (t ≤ current_time)

/-- Method `AlarmState.check_deactivate(current_time)`:
first `if self.active and not self.deactivate_time:` schedule
`current_time + deactivate_delay`; then
`if self.deactivate_time and current_time >= self.deactivate_time:` turn the
alarm off and clear the timestamp.  The truthiness tests on
`self.deactivate_time` are kept exactly as Python evaluates them. -/
def AlarmState.check_deactivate (s : AlarmState) (current_time : ℚ) : AlarmState :=
  let s1 : AlarmState :=
    if s.active && !pyTruthy s.deactivate_time then
      { s with deactivate_time := some (current_time + deactivate_delay) }
    else s
  if pyTruthy s1.deactivate_time && timeReached current_time s1.deactivate_time then
    { active := false, deactivate_time := none }
  else s1

/-- Method `AlarmState.reset`: `self.active = False; self.deactivate_time = None`. -/
def AlarmState.reset (_s : AlarmState) : AlarmState :=
  { active := false, deactivate_time := none }

/-- Constructor state of `AlarmState`: starts inactive with no pending timestamp. -/
def AlarmState.init : AlarmState :=
  { active := false, deactivate_time := none }

/-- The per-frame alarm update at the end of `IntrusionDetector.process_frame`:
`if has_intrusion: self.alarm_state.activate() else:
self.alarm_state.check_deactivate(current_time)`. -/
def alarmStep (s : AlarmState) (has_intrusion : Bool) (now : ℚ) : AlarmState :=
  if has_intrusion then s.activate else s.check_deactivate now

/-- Feeding a whole sequence of per-frame `(has_intrusion, now)` updates to the
alarm state machine, in order. -/
def runUpdates (s : AlarmState) (l : List (Bool × ℚ)) : AlarmState :=
  l.foldl (fun st u => alarmStep st u.1 u.2) s

/-- The state invariant of the alarm machine: an inactive alarm never carries
a pending deactivation timestamp. -/
def alarmInv (s : AlarmState) : Prop :=
  s.active = false → s.deactivate_time = none

/-- C1 (counterexample): the claim fails at the concrete ACTIVE state whose
scheduled deactivation timestamp is `0.0`.  That state is reachable from the
initial state with non-decreasing update times (an intrusion at time `-4`,
then a quiet frame at time `-3` schedules `-3 + 3 = 0`).  At `now = 0` the
scheduled timestamp is due (`now ≥ 0`), so the claim demands the INACTIVE
state with the timestamp cleared; the code instead treats the falsy float
`0.0` as "no timestamp scheduled", reschedules for time `3`, and stays
ACTIVE. -/
theorem alarm_check_deactivate_zero_timestamp_cex :
    runUpdates AlarmState.init [(true, -4), (false, -3)] = ⟨true, some 0⟩ ∧
    (0 : ℚ) ≥ 0 ∧
    AlarmState.check_deactivate ⟨true, some 0⟩ 0 = ⟨true, some 3⟩ ∧
    AlarmState.check_deactivate ⟨true, some 0⟩ 0 ≠ ⟨false, none⟩ := by
  refine ⟨?_, le_refl 0, ?_, ?_⟩ <;>
    norm_num [runUpdates, alarmStep, AlarmState.init, AlarmState.activate,
      AlarmState.check_deactivate, pyTruthy, timeReached, deactivate_delay]

/-- C1 (amended): in the ACTIVE state, an update with `has_intrusion = false`
at time `now` behaves as the claim states, provided a scheduled deactivation
timestamp is nonzero (Python truthiness makes the code treat a scheduled
timestamp of exactly `0.0` as absent; timestamps produced from non-negative
times are always ≥ 3): with no timestamp scheduled, one is scheduled at
`now + 3` and the state stays ACTIVE; with a nonzero timestamp `t` and
`now ≥ t`, the state becomes INACTIVE with the timestamp cleared; with a
nonzero timestamp not yet due, the state is unchanged. -/
theorem alarm_check_deactivate_cases (s : AlarmState) (now : ℚ)
    (hact : s.active = true) :
    (s.deactivate_time = none →
      s.check_deactivate now = ⟨true, some (now + deactivate_delay)⟩) ∧
    (∀ t, s.deactivate_time = some t → t ≠ 0 → t ≤ now →
      s.check_deactivate now = ⟨false, none⟩) ∧
    (∀ t, s.deactivate_time = some t → t ≠ 0 → now < t →
      s.check_deactivate now = s) := by
  obtain ⟨a, dt⟩ := s
  cases hact
  refine ⟨?_, ?_, ?_⟩
  · rintro rfl
    simp only [AlarmState.check_deactivate, pyTruthy, timeReached]
    norm_num [deactivate_delay]
  · rintro t rfl ht hle
    simp only [AlarmState.check_deactivate, pyTruthy, timeReached]
    simp [ht, hle]
  · rintro t rfl ht hlt
    simp only [AlarmState.check_deactivate, pyTruthy, timeReached]
    simp [ht, not_le.mpr hlt]

/-- C1 (witness): the amended theorem at the concrete ACTIVE state with
scheduled timestamp `1` and `now = 2`: the alarm deactivates. -/
theorem alarm_check_deactivate_cases_witness :
    AlarmState.check_deactivate ⟨true, some 1⟩ 2 = ⟨false, none⟩ :=
  (alarm_check_deactivate_cases ⟨true, some 1⟩ 2 rfl).2.1 1 rfl
    (by norm_num) (by norm_num)

/-- C2: in any run, immediately after an update whose `has_intrusion` is
`true` the alarm state is ACTIVE with no pending deactivation timestamp — in
particular a `true` update cancels any pending deactivation and the alarm is
never INACTIVE at the end of an update that reported an intrusion. -/
theorem alarm_true_update_activates (pre : List (Bool × ℚ)) (u : Bool × ℚ)
    (s : AlarmState) (hu : u.1 = true) :
    runUpdates s (pre ++ [u]) = ⟨true, none⟩ := by
  obtain ⟨b, now⟩ := u
  cases hu
  simp [runUpdates, List.foldl_append, alarmStep, AlarmState.activate]

/-- C2 (witness): a run in which a deactivation is pending after a quiet
frame, then an intrusion at time `2` cancels it. -/
theorem alarm_true_update_activates_witness :
    runUpdates AlarmState.init [(true, 0), (false, 1), (true, 2)] =
      ⟨true, none⟩ :=
  alarm_true_update_activates [(true, 0), (false, 1)] (true, 2)
    AlarmState.init rfl

/-- C3: whenever the alarm is INACTIVE the pending-deactivation timestamp is
absent: this holds in the initial state and is preserved by `activate`,
`check_deactivate` at any time, and `reset`. -/
theorem alarm_invariant_preserved :
    alarmInv AlarmState.init ∧
    (∀ s : AlarmState, alarmInv s.activate) ∧
    (∀ (s : AlarmState) (now : ℚ), alarmInv s →
      alarmInv (s.check_deactivate now)) ∧
    (∀ s : AlarmState, alarmInv s.reset) := by
  refine ⟨fun _ => rfl, fun s => by simp [alarmInv, AlarmState.activate], ?_,
    fun s => by simp [alarmInv, AlarmState.reset]⟩
  rintro ⟨a, dt⟩ now hinv
  cases a
  · have hdt : dt = none := hinv rfl
    subst hdt
    simp [alarmInv, AlarmState.check_deactivate, pyTruthy, timeReached]
  · simp only [alarmInv, AlarmState.check_deactivate]
    split <;> (try split) <;> simp_all

/-- C3 (witness): the invariant after a `check_deactivate` that fires at the
concrete ACTIVE state with timestamp `2` and `now = 5`. -/
theorem alarm_invariant_preserved_witness :
    alarmInv (AlarmState.check_deactivate ⟨true, some 2⟩ 5) :=
  alarm_invariant_preserved.2.2.1 ⟨true, some 2⟩ 5
    (fun h => Bool.noConfusion h)

/-! ### Geometry module (`geometry_utils.py`) -/

/-- The Python `int(...)` conversion applied to a float: truncation toward zero, embedded
on exact rationals as truncating division of the numerator by the
denominator. -/
def pyInt (q : ℚ) : ℤ := q.num.tdiv q.den

/-- Function `bbox_center(bbox)`: `(int((x1+x2)/2), int((y1+y2)/2))`. -/
def bbox_center (bbox : ℚ × ℚ × ℚ × ℚ) : ℤ × ℤ :=
  (pyInt ((bbox.1 + bbox.2.2.1) / 2), pyInt ((bbox.2.1 + bbox.2.2.2) / 2))

/-- Truncation toward zero on `ℚ`, specified through floor and ceiling (the
wording in the spec, "truncation toward zero, not rounding"). -/
def truncTowardZero (q : ℚ) : ℤ := if 0 ≤ q then ⌊q⌋ else ⌈q⌉

/-- A zone as consumed by the detector: `zone["id"]` and `zone["points"]`. -/
structure Zone where
  id : ℤ
  points : List (ℤ × ℤ)
  deriving DecidableEq, Repr

/-- The point `p` lies on the closed segment from `a` to `b` (collinear and
inside the bounding box of the segment). -/
def onSegment (p a b : ℤ × ℤ) : Bool :=
  decide ((b.1 - a.1) * (p.2 - a.2) = (b.2 - a.2) * (p.1 - a.1) ∧
    min a.1 b.1 ≤ p.1 ∧ p.1 ≤ max a.1 b.1 ∧
    min a.2 b.2 ≤ p.2 ∧ p.2 ≤ max a.2 b.2)

/-- The edges of a polygon given as its vertex list, including the implicit
closing edge from the last vertex back to the first. -/
def polygonEdges (poly : List (ℤ × ℤ)) : List ((ℤ × ℤ) × (ℤ × ℤ)) :=
  poly.zip (poly.rotate 1)

/-- One step of the even-odd rule: the horizontal ray from `p` to the right
properly crosses the edge from `a` to `b`. -/
def edgeCrosses (p a b : ℤ × ℤ) : Bool :=
  decide ((a.2 ≤ p.2 ∧ p.2 < b.2 ∧
      (b.1 - a.1) * (p.2 - a.2) < (b.2 - a.2) * (p.1 - a.1)) ∨
    (b.2 ≤ p.2 ∧ p.2 < a.2 ∧
      (b.2 - a.2) * (p.1 - a.1) < (b.1 - a.1) * (p.2 - a.2)))

/-- Modelled from the spec: `point_in_polygon` delegates the containment test
to `cv2.pointPolygonTest` (OpenCV — external, not part of this repository),
and the spec fixes only that "a standard polygon containment test
(ray-casting / winding, the choice of the implementation) returns non-negative — i.e.,
boundary points count as inside".  This is an even-odd horizontal
ray-crossing test over exact integer arithmetic with an explicit inclusive
boundary check. -/
def point_in_polygon (point : ℤ × ℤ) (polygon : List (ℤ × ℤ)) : Bool :=
  (polygonEdges polygon).any (fun e => onSegment point e.1 e.2) ||
    (polygonEdges polygon).foldl
      (fun acc e => if edgeCrosses point e.1 e.2 then !acc else acc) false

/-- Function `check_person_in_zones(center, zones)`: iterate over the zones in order,
appending the id of every zone whose polygon contains the center. -/
def check_person_in_zones (center : ℤ × ℤ) (zones : List Zone) : List ℤ :=
  zones.foldl
    (fun acc zone =>
      if point_in_polygon center zone.points then acc ++ [zone.id] else acc)
    []

/-- The intrusion aggregation of `IntrusionDetector.process_frame`: for each
detected box compute `bbox_center`, look up the intersecting zones, and set
`has_intrusion` whenever the list is non-empty (Python list truthiness). -/
def process_frame_has_intrusion (dets : List (ℚ × ℚ × ℚ × ℚ))
    (zones : List Zone) : Bool :=
  dets.foldl
    (fun acc d =>
      if (check_person_in_zones (bbox_center d) zones).isEmpty then acc
      else true)
    false

/-- The zone loop of `check_person_in_zones` with an arbitrary accumulator:
it appends, in registry order, the ids of the matching zones. -/
lemma check_person_foldl (center : ℤ × ℤ) (zones : List Zone)
    (acc : List ℤ) :
    zones.foldl
        (fun acc zone =>
          if point_in_polygon center zone.points then acc ++ [zone.id]
          else acc)
        acc =
      acc ++ (zones.filter
        (fun z => point_in_polygon center z.points)).map Zone.id := by
  induction zones generalizing acc with
  | nil => simp
  | cons z rest ih =>
    simp only [List.foldl_cons, List.filter_cons]
    by_cases h : point_in_polygon center z.points = true
    · simp [h, ih]
    · simp [h, ih]

/-- The intersecting-zones list is non-empty exactly when the polygon of some zone
contains the center. -/
lemma check_person_in_zones_isEmpty_false (center : ℤ × ℤ)
    (zones : List Zone) :
    (check_person_in_zones center zones).isEmpty = false ↔
      ∃ z ∈ zones, point_in_polygon center z.points = true := by
  rw [check_person_in_zones, check_person_foldl]
  simp [List.isEmpty_eq_false, List.filter_eq_nil_iff]

/-- The detector loop of `process_frame_has_intrusion` with an arbitrary
accumulator. -/
lemma intrusion_foldl (dets : List (ℚ × ℚ × ℚ × ℚ)) (zones : List Zone)
    (acc : Bool) :
    dets.foldl
        (fun acc d =>
          if (check_person_in_zones (bbox_center d) zones).isEmpty then acc
          else true)
        acc =
      (acc || dets.any
        (fun d => !(check_person_in_zones (bbox_center d) zones).isEmpty)) := by
  induction dets generalizing acc with
  | nil => simp
  | cons d rest ih =>
    simp only [List.foldl_cons, List.any_cons]
    by_cases h : (check_person_in_zones (bbox_center d) zones).isEmpty = true
    · rw [if_pos h, ih, h]
      simp
    · rw [if_neg h, ih]
      rw [Bool.not_eq_true] at h
      rw [h]
      simp

/-- C4: the aggregated per-frame `has_intrusion` boolean is true exactly when
the representative point (bounding-box centroid) of at least one detection is
contained in at least one zone of the registry. -/
theorem process_frame_has_intrusion_iff (dets : List (ℚ × ℚ × ℚ × ℚ))
    (zones : List Zone) :
    process_frame_has_intrusion dets zones = true ↔
      ∃ d ∈ dets, ∃ z ∈ zones,
        point_in_polygon (bbox_center d) z.points = true := by
  rw [process_frame_has_intrusion, intrusion_foldl]
  simp only [Bool.false_or, List.any_eq_true, Bool.not_eq_true']
  constructor
  · rintro ⟨d, hd, h⟩
    exact ⟨d, hd, (check_person_in_zones_isEmpty_false _ _).mp h⟩
  · rintro ⟨d, hd, h⟩
    exact ⟨d, hd, (check_person_in_zones_isEmpty_false _ _).mpr h⟩

/-- C6: `check_person_in_zones` returns exactly the ids of the zones whose
polygon contains the point, preserving registry insertion order — every
matching id is reported and no non-matching id appears. -/
theorem check_person_in_zones_matches (center : ℤ × ℤ) (zones : List Zone) :
    check_person_in_zones center zones =
      (zones.filter (fun z => point_in_polygon center z.points)).map
        Zone.id := by
  simpa using check_person_foldl center zones []

/-- Python `int()` on an exact rational agrees with truncation toward zero
specified via floor (for non-negative arguments) and ceiling (for negative
ones). -/
lemma pyInt_eq_truncTowardZero (q : ℚ) : pyInt q = truncTowardZero q := by
  unfold pyInt truncTowardZero
  by_cases h : 0 ≤ q
  · rw [if_pos h]
    have hnum : 0 ≤ q.num := Rat.num_nonneg.mpr h
    rw [Int.tdiv_eq_ediv hnum (Int.ofNat_nonneg _), Rat.floor_def]
  · rw [if_neg h]
    push_neg at h
    have hq : (0 : ℚ) ≤ -q := by linarith
    have hnum : 0 ≤ (-q).num := Rat.num_nonneg.mpr hq
    have hfl : ⌊-q⌋ = (-q).num.tdiv (-q).den := by
      rw [Rat.floor_def, Int.tdiv_eq_ediv hnum (Int.ofNat_nonneg _)]
    rw [Rat.neg_num, Rat.neg_den, Int.neg_tdiv] at hfl
    have hceil : ⌊-q⌋ = -⌈q⌉ := Int.floor_neg
    omega

/-- C7: `bbox_center` returns the integer-truncated centroid of the bounding
box — truncation toward zero, not rounding. -/
theorem bbox_center_is_truncated_centroid (x1 y1 x2 y2 : ℚ)
    (_hx : x1 ≤ x2) (_hy : y1 ≤ y2) :
    bbox_center (x1, y1, x2, y2) =
      (truncTowardZero ((x1 + x2) / 2), truncTowardZero ((y1 + y2) / 2)) := by
  simp [bbox_center, pyInt_eq_truncTowardZero]

/-- C7 (witness): the box `(0, 0, 10, 11)` has representative point
`(5, 5)` — `(5, 5.5)` truncated, not rounded. -/
theorem bbox_center_is_truncated_centroid_witness :
    bbox_center (0, 0, 10, 11) = (5, 5) := by
  have h := bbox_center_is_truncated_centroid 0 0 10 11 (by norm_num)
    (by norm_num)
  rw [h]
  norm_num [truncTowardZero]

/-! ### Zone registry (`zone_manager.py`, class `ZoneManager`)

Python values parsed from or written to the zone file are embedded as `Json`
values.  The `json` standard library is abstracted at the value level:
`json.load` of a well-formed document yields the value of the document and
`json.dump` writes exactly the value it was given (the documented stdlib
round-trip for the integer/list/dict subset used here).  The possible
outcomes of opening and parsing the backing file are the cases of
`LoadSource`. -/

/-- A parsed JSON value (a Python object as produced by `json.load`).
Numbers are restricted to the integers, which is all the zone schema uses. -/
inductive Json where
  | null
  | bool (b : Bool)
  | num (n : ℤ)
  | str (s : String)
  | arr (elems : List Json)
  | obj (fields : List (String × Json))

/-- What the filesystem and the JSON parser can produce for a source path:
the path does not exist (`os.path.exists` is false); opening or reading
raises `IOError`; the bytes are not valid JSON (`json.JSONDecodeError`); or
the document parses to a JSON value. -/
inductive LoadSource where
  | missing
  | unreadable
  | undecodable
  | parsed (data : Json)

/-- A Python exception escaping `load_zones` uncaught. -/
inductive PyError where
  | attributeError
  deriving DecidableEq, Repr

/-- Attribute access `data.get("zones", [])`: succeeds only on a dict; on every other value
Python raises `AttributeError` (no `.get` method), which `load_zones` does
not catch. -/
def dictGet (data : Json) (key : String) (default : Json) : Except PyError Json :=
  match data with
  | .obj fields => .ok ((fields.lookup key).getD default)
  | _ => .error .attributeError

/-- Method `ZoneManager.load_zones`.  Here `prior` is the value of `self.zones` before
the call: a missing path leaves it untouched; a caught `IOError` or
`json.JSONDecodeError` resets it to `[]`; a parsed document is queried with
`data.get("zones", [])`, whose `AttributeError` on a non-dict document
escapes uncaught. -/
def load_zones (prior : Json) (src : LoadSource) : Except PyError Json :=
  match src with
  | .missing => .ok prior
  | .unreadable => .ok (.arr [])
  | .undecodable => .ok (.arr [])
  | .parsed data => dictGet data "zones" (.arr [])

/-- Method `ZoneManager.add_zone(points, zone_id)`: defaults the id to
`len(self.zones) + 1` and appends a dict with the id and the points as
`[[int(x), int(y)] for ...]` (the coordinates are already integers here). -/
def add_zone (zones : List Json) (points : List (ℤ × ℤ))
    (zone_id : Option ℤ) : List Json :=
  let zid := zone_id.getD ((zones.length : ℤ) + 1)
  zones ++ [Json.obj [("id", Json.num zid),
    ("points", Json.arr (points.map fun pt =>
      Json.arr [Json.num pt.1, Json.num pt.2]))]]

/-- Method `ZoneManager.save_zones` on a writable destination: `json.dump` of
the dict mapping "zones" to `self.zones`, so the destination afterwards
parses to exactly that document. -/
def save_zones (zones : List Json) : LoadSource :=
  .parsed (.obj [("zones", .arr zones)])

/-- A registry built purely with `add_zone` (no explicit ids), as the
interactive zone-capture flow does. -/
def buildRegistry (ptss : List (List (ℤ × ℤ))) : List Json :=
  ptss.foldl (fun zs pts => add_zone zs pts none) []

/-- C8 (counterexample): a malformed source that is well-formed JSON but not
an object — here the document `[]` — makes `load_zones` raise an uncaught
`AttributeError` instead of yielding an empty registry. -/
theorem load_zones_non_object_raises_cex :
    load_zones (.arr []) (.parsed (.arr [])) =
      .error PyError.attributeError := rfl

/-- C8 (amended): a fresh load (no zones previously loaded, as in the
constructor) yields an empty registry with no error raised when the source
file is missing; and regardless of the prior registry, a source that is
unreadable (`IOError`) or not decodable as JSON (`json.JSONDecodeError`)
yields an empty registry with no error raised.  A source that decodes to a
non-object JSON value instead raises an uncaught `AttributeError`. -/
theorem load_zones_silent_degrade (prior : Json) :
    load_zones (.arr []) .missing = .ok (.arr []) ∧
    load_zones prior .unreadable = .ok (.arr []) ∧
    load_zones prior .undecodable = .ok (.arr []) :=
  ⟨rfl, rfl, rfl⟩

/-- C9: saving a registry built via `add_zone` and loading the saved
destination back yields exactly the same zone list — same number of zones,
identical ids and identical point sequences in the same order. -/
theorem save_load_round_trip (ptss : List (List (ℤ × ℤ)))
    (hne : ptss ≠ []) :
    load_zones (.arr []) (save_zones (buildRegistry ptss)) =
      .ok (.arr (buildRegistry ptss)) ∧
    buildRegistry ptss ≠ [] := by
  constructor
  · rfl
  · have hlen : ∀ (l : List (List (ℤ × ℤ))) (acc : List Json),
        (l.foldl (fun zs pts => add_zone zs pts none) acc).length =
          acc.length + l.length := by
      intro l
      induction l with
      | nil => simp
      | cons pts rest ih =>
        intro acc
        rw [List.foldl_cons, ih]
        simp [add_zone]
        omega
    intro hnil
    have h2 := hlen ptss []
    unfold buildRegistry at hnil
    rw [hnil] at h2
    have h3 : ptss.length = 0 := by simpa using h2.symm
    exact hne (List.length_eq_zero.mp h3)

/-- C9 (witness): the round trip at a concrete one-zone registry. -/
theorem save_load_round_trip_witness :
    load_zones (.arr []) (save_zones (buildRegistry [[(0, 0), (4, 0), (0, 4)]])) =
      .ok (.arr (buildRegistry [[(0, 0), (4, 0), (0, 4)]])) :=
  (save_load_round_trip [[(0, 0), (4, 0), (0, 4)]] (by simp)).1

/-- C10: loading a well-formed JSON object with no `"zones"` key silently
yields the empty zone list (the missing key defaults to `[]`), and whatever
value is present under `"zones"` is adopted verbatim, without validation of
its entries. -/
theorem load_zones_default_and_verbatim (prior : Json)
    (fields : List (String × Json)) :
    (fields.lookup "zones" = none →
      load_zones prior (.parsed (.obj fields)) = .ok (.arr [])) ∧
    (∀ v, fields.lookup "zones" = some v →
      load_zones prior (.parsed (.obj fields)) = .ok v) := by
  constructor
  · intro h
    simp [load_zones, dictGet, h]
  · intro v h
    simp [load_zones, dictGet, h]

/-- C10 (witness): an object without a `"zones"` key loads as the empty
list, and a non-list `"zones"` value (the number `42`) is adopted
verbatim. -/
theorem load_zones_default_and_verbatim_witness :
    load_zones (.arr []) (.parsed (.obj [("name", .str "lab")])) =
      .ok (.arr []) ∧
    load_zones (.arr []) (.parsed (.obj [("zones", .num 42)])) =
      .ok (.num 42) :=
  ⟨(load_zones_default_and_verbatim (.arr []) [("name", .str "lab")]).1 rfl,
   (load_zones_default_and_verbatim (.arr []) [("zones", .num 42)]).2
     (.num 42) rfl⟩

end SecurityCheck
